import Mathlib

/-!
Shallow embedding of the libhdfspp C bindings
(hadoop-hdfs-native-client .../libhdfspp/lib/bindings/c/hdfs.cc) and proofs
about the boundary layer: status translation, the thread-local error channel,
handle validation, the configuration builder, event-callback glue and the
log-record copy/free protocol.

External engine behaviour (FileSystem, ConfigurationLoader, HdfsConfiguration)
is represented by oracle parameters; the code of this translation unit is
embedded faithfully.
-/

set_option linter.unusedVariables false

/-- POSIX errno values used by this translation unit, kept symbolic. -/
inductive Errno where
  | EINVAL
  | EAGAIN
  | ENOSYS
  | EINTR
  | EACCES
  | ENODEV
  | EBADF
  deriving DecidableEq, Repr

/-- Thread-local error state: the process errno slot and the thread-local
last-error string (the `errstr` global of hdfs.cc).  `errnum = none` means
errno has not been written by this layer yet. -/
structure CState where
  errnum : Option Errno
  errstr : String
  deriving DecidableEq, Repr

/-- `ReportError(errnum, msg)`: sets errno and the thread-local error string
unconditionally. -/
def ReportError (errnum : Errno) (msg : String) (s : CState) : CState :=
  { s with errnum := some errnum, errstr := msg }

/-- Internal result codes of `Status` (enum `Status::Code`).  `kOther` stands
for every code not named in the switch of `Error`, carrying an arbitrary
discriminant. -/
inductive StatusCode where
  | kOk
  | kInvalidArgument
  | kResourceUnavailable
  | kUnimplemented
  | kException
  | kOperationCanceled
  | kPermissionDenied
  | kOther (n : Nat)
  deriving DecidableEq, Repr

/-- The engine result object as observed by this layer: its code and the text
returned by `ToString()` (empty when the result carries no descriptive
text). -/
structure Status where
  code : StatusCode
  text : String
  deriving DecidableEq, Repr

/-- `Status::ok()`. -/
def Status.ok (stat : Status) : Bool :=
  stat.code = StatusCode.kOk

/-- `Status::Exception(class, what)` as used by the exception guards: a
result with the exception code carrying the given descriptive text. -/
def Status.Exception (exClass what : String) : Status :=
  ⟨StatusCode.kException, exClass ++ ": " ++ what⟩

/-- `Error(stat)`: convert a Status-wrapped error into an errno plus message
recorded in the thread-local channel, returning the C return code.
For `kOk` it returns 0 and records nothing; otherwise it records the mapped
errno and, when `stat.ToString()` is empty, the default message, else the
carried text, and returns -1. -/
def Error (stat : Status) (s : CState) : Int × CState :=
  match stat.code with
  | StatusCode.kOk => (0, s)
  | c =>
    let pair : Errno × String :=
      match c with
      | StatusCode.kInvalidArgument => (Errno.EINVAL, "Invalid argument")
      | StatusCode.kResourceUnavailable =>
          (Errno.EAGAIN, "Resource temporarily unavailable")
      | StatusCode.kUnimplemented => (Errno.ENOSYS, "Function not implemented")
      | StatusCode.kException => (Errno.EINTR, "Exception raised")
      | StatusCode.kOperationCanceled => (Errno.EINTR, "Operation canceled")
      | StatusCode.kPermissionDenied => (Errno.EACCES, "Permission denied")
      | _ => (Errno.ENOSYS, "Error: unrecognised code")
    if stat.text = "" then
      (-1, ReportError pair.1 pair.2 s)
    else
      (-1, ReportError pair.1 stat.text s)

/-- `ReportException(e)`: route an uncaught `std::exception` through `Error`. -/
def ReportException (what : String) (s : CState) : Int × CState :=
  Error (Status.Exception "Uncaught exception" what) s

/-- `ReportCaughtNonException()`: route an uncaught non-exception value
through `Error`. -/
def ReportCaughtNonException (s : CState) : Int × CState :=
  Error (Status.Exception "Uncaught value not derived from std::exception" "") s

/-- `hdfsGetLastError(buf, len)` modelled as the sequence of byte writes it
performs on the caller buffer: each element is an index into the buffer and
the byte written there (`none` denotes the null byte).  The stored message is
`errstr`, given as its byte list; `bufNull` says whether `buf` is the null
pointer. -/
def hdfsGetLastError (errstr : List Char) (bufNull : Bool) (len : Int) :
    List (Nat × Option Char) :=
  if bufNull ∨ len < 1 then
    []
  else
    let lenN : Nat := len.toNat
    let copylen0 : Nat := min errstr.length lenN
    let copylen : Nat := if copylen0 = lenN then copylen0 - 1 else copylen0
    ((List.range copylen).map
      (fun i => (i, some (errstr.getD i (Char.ofNat 0))))) ++ [(copylen, none)]

/-- `CheckSystemAndHandle(fs, file)`: validate the two handles, reporting
`ENODEV` for a null filesystem handle and `EBADF` for a null file handle.
Handles are modelled by their null-ness: `true` means non-null. -/
def CheckSystemAndHandle (fs file : Bool) (s : CState) : Bool × CState :=
  if !fs then
    (false,
     ReportError Errno.ENODEV "Cannot perform FS operations with null FS handle." s)
  else if !file then
    (false,
     ReportError Errno.EBADF "Cannot perform FS operations with null File handle." s)
  else
    (true, s)

/-- `hdfsFileIsOpenForRead(file)`: 1 for a non-null file handle, 0 for null;
a pure function of the handle null-ness with no engine call and no error
report. -/
def hdfsFileIsOpenForRead (file : Bool) : Int :=
  if file then 1 else 0

/-- Result of a per-file operation: the C return value, the error state
after the call, and whether the wrapped engine object was touched at all. -/
structure OpResult where
  ret : Int
  state : CState
  engineCalled : Bool
  deriving DecidableEq, Repr

/-- `hdfsCloseFile(fs, file)`: validate handles, then destroy the file
wrapper (which touches the owned engine object). -/
def hdfsCloseFile (fs file : Bool) (s : CState) : OpResult :=
  match CheckSystemAndHandle fs file s with
  | (false, s2) => ⟨-1, s2, false⟩
  | (true, s2) => ⟨0, s2, true⟩

/-- `hdfsPread(fs, file, position, buffer, length)`: validate handles, call
the engine `PositionRead`, and either return the transferred byte count or
route the failure through `Error`.  The engine outcome is the oracle pair
`(engStat, engLen)`. -/
def hdfsPread (engStat : Status) (engLen : Nat) (fs file : Bool)
    (position length : Int) (s : CState) : OpResult :=
  match CheckSystemAndHandle fs file s with
  | (false, s2) => ⟨-1, s2, false⟩
  | (true, s2) =>
    if engStat.ok then
      ⟨(engLen : Int), s2, true⟩
    else
      let (r, s3) := Error engStat s2
      ⟨r, s3, true⟩

/-- `hdfsRead(fs, file, buffer, length)`: validate handles, call the engine
`Read`, and either return the transferred byte count or route the failure
through `Error`. -/
def hdfsRead (engStat : Status) (engLen : Nat) (fs file : Bool)
    (length : Int) (s : CState) : OpResult :=
  match CheckSystemAndHandle fs file s with
  | (false, s2) => ⟨-1, s2, false⟩
  | (true, s2) =>
    if engStat.ok then
      ⟨(engLen : Int), s2, true⟩
    else
      let (r, s3) := Error engStat s2
      ⟨r, s3, true⟩

/-- `hdfsSeek(fs, file, desiredPos)`: validate handles, call the engine
`Seek` from the beginning, return 0 on success. -/
def hdfsSeek (engStat : Status) (fs file : Bool) (desiredPos : Int)
    (s : CState) : OpResult :=
  match CheckSystemAndHandle fs file s with
  | (false, s2) => ⟨-1, s2, false⟩
  | (true, s2) =>
    if engStat.ok then
      ⟨0, s2, true⟩
    else
      let (r, s3) := Error engStat s2
      ⟨r, s3, true⟩

/-- `hdfsTell(fs, file)`: validate handles, query the engine `Seek` with a
zero offset relative to the current position, return the resulting offset. -/
def hdfsTell (engStat : Status) (engOffset : Int) (fs file : Bool)
    (s : CState) : OpResult :=
  match CheckSystemAndHandle fs file s with
  | (false, s2) => ⟨-1, s2, false⟩
  | (true, s2) =>
    if engStat.ok then
      ⟨engOffset, s2, true⟩
    else
      let (r, s3) := Error engStat s2
      ⟨r, s3, true⟩

/-- `hdfsCancel(fs, file)`: validate handles, then ask the engine to cancel
in-flight operations; always returns 0 once the handles are validated. -/
def hdfsCancel (fs file : Bool) (s : CState) : OpResult :=
  match CheckSystemAndHandle fs file s with
  | (false, s2) => ⟨-1, s2, false⟩
  | (true, s2) => ⟨0, s2, true⟩

/-- `kDefaultPort`. -/
def kDefaultPort : Nat := 8020

/-- Which engine connect entry `doHdfsConnect` invokes: either
`Connect(host, portString)` with an explicit address, or
`ConnectToDefaultFs()`. -/
inductive ConnectTarget where
  | explicitAddr (host portStr : String)
  | defaultFs
  deriving DecidableEq, Repr

/-- The engine behaviour `doHdfsConnect` depends on: whether
`FileSystem::New` returns a non-null object, whether the `FileSystem`
constructor took ownership of the I/O service (nulling the raw pointer),
and the status each connect call returns. -/
structure Engine where
  fsNewOk : Bool
  fsTakesIo : Bool
  connect : ConnectTarget → Status

/-- Observable outcome of `doHdfsConnect`: the returned handle (none for
null), which engine connect entry was invoked (none when never reached),
whether the pending filesystem event callback was attached, whether the
layer executed `delete io_service` and `delete fs`, and the error state. -/
structure ConnectResult where
  ret : Option Unit
  target : Option ConnectTarget
  callbackAttached : Bool
  ioServiceDeleted : Bool
  fsDeleted : Bool
  state : CState

/-- `doHdfsConnect(nn, port, user, options)`: construct the I/O service and
filesystem object, attach any pending event callback, connect to the
explicit address (host defaulted to the empty string, port to
`kDefaultPort`) when a host or port override is present and otherwise to
the default filesystem, and on failure clean up and report. -/
def doHdfsConnect (eng : Engine) (fsCbPresent : Bool) (nn : Option String)
    (port : Option Nat) (user : Option String) (s : CState) : ConnectResult :=
  if !eng.fsNewOk then
    { ret := none, target := none, callbackAttached := false,
      ioServiceDeleted := false, fsDeleted := false,
      state := ReportError Errno.ENODEV "Could not create FileSystem object" s }
  else
    let attached := fsCbPresent
    let target :=
      if nn.isSome || port.isSome then
        ConnectTarget.explicitAddr (nn.getD "") (toString (port.getD kDefaultPort))
      else
        ConnectTarget.defaultFs
    let status := eng.connect target
    if !status.ok then
      let (_, s2) := Error status s
      { ret := none, target := some target, callbackAttached := attached,
        ioServiceDeleted := !eng.fsTakesIo, fsDeleted := true, state := s2 }
    else
      { ret := some (), target := some target, callbackAttached := attached,
        ioServiceDeleted := false, fsDeleted := false, state := s }

/-- The layered configuration snapshot (`HdfsConfiguration`), observed
through its getters.  The getter bodies live outside this translation unit,
so they are oracle functions. -/
structure HdfsConfiguration where
  get : String → Option String
  getInt : String → Option Int

/-- The configuration loader (`ConfigurationLoader`), observed through the
functional overlay used by `hdfsBuilderConfSetStr`: it either produces a new
snapshot or rejects the change. -/
structure ConfigurationLoader where
  OverlayValue : HdfsConfiguration → String → String → Option HdfsConfiguration

/-- The builder state: the loader, the current configuration snapshot and
the three optional connection overrides. -/
structure hdfsBuilder where
  loader : ConfigurationLoader
  config : HdfsConfiguration
  overrideHost : Option String
  overridePort : Option Nat
  user : Option String

/-- `hdfsBuilderSetNameNode(bld, nn)`. -/
def hdfsBuilderSetNameNode (bld : hdfsBuilder) (nn : String) : hdfsBuilder :=
  { bld with overrideHost := some nn }

/-- `hdfsBuilderSetNameNodePort(bld, port)`. -/
def hdfsBuilderSetNameNodePort (bld : hdfsBuilder) (port : Nat) : hdfsBuilder :=
  { bld with overridePort := some port }

/-- `hdfsBuilderSetUserName(bld, userName)`: ignored when the name is null
or empty. -/
def hdfsBuilderSetUserName (bld : hdfsBuilder) (userName : Option String) :
    hdfsBuilder :=
  match userName with
  | some u => if u ≠ "" then { bld with user := some u } else bld
  | none => bld

/-- `hdfsBuilderConfSetStr(bld, key, val)`: ask the loader to overlay the
value onto the current snapshot; on success replace the snapshot and return
0, otherwise report `EINVAL` and return 1 with the builder untouched. -/
def hdfsBuilderConfSetStr (bld : hdfsBuilder) (key val : String) (s : CState) :
    Int × hdfsBuilder × CState :=
  match bld.loader.OverlayValue bld.config key val with
  | some newConfig => (0, { bld with config := newConfig }, s)
  | none => (1, bld, ReportError Errno.EINVAL "Could not change Builder value" s)

/-- `isValidInt(value)`: whether a 64-bit value fits the 32-bit signed int
range. -/
def isValidInt (value : Int) : Bool :=
  -2147483648 ≤ value ∧ value ≤ 2147483647

/-- `hdfsBuilderConfGetInt(bld, key, val)`: pull the key from the snapshot;
a present out-of-range value returns 1 leaving the output slot alone; a
present in-range value is stored in the output slot; in every remaining path
the function reports `EINVAL` and returns 0.  `valOld` is the contents of
the output slot before the call; the middle component of the result is its
contents after. -/
def hdfsBuilderConfGetInt (bld : hdfsBuilder) (key : String) (valOld : Int)
    (s : CState) : Int × Int × CState :=
  match bld.config.getInt key with
  | some value =>
    if !isValidInt value then
      (1, valOld, s)
    else
      (0, value, ReportError Errno.EINVAL "Could not get Builder value" s)
  | none => (0, valOld, ReportError Errno.EINVAL "Could not get Builder value" s)

/-- Modelled from the spec: the event return codes of `hdfs_ext.h` are not
under src; the spec only requires a normal continue code and one distinct
debug sentinel, fixed here as 0 and -1. -/
def LIBHDFSPP_EVENT_OK : Int := 0

/-- Modelled from the spec: the debug sentinel return value that requests a
synthesized test failure. -/
def DEBUG_SIMULATE_ERROR : Int := -1

/-- The engine-side response produced by the callback glue. -/
inductive event_response where
  | ok
  | test_err (text : String)
  deriving DecidableEq, Repr

/-- One invocation of a C filesystem-event handler, with the arguments it
received. -/
structure FsCallArgs where
  event : String
  cluster : String
  value : Int
  cookie : Int
  deriving DecidableEq, Repr

/-- One invocation of a C file-event handler. -/
structure FileCallArgs where
  event : String
  cluster : String
  file : String
  value : Int
  cookie : Int
  deriving DecidableEq, Repr

/-- `fs_callback_glue(handler, cookie, event, cluster, value)`: call the C
handler with the event arguments plus the stored cookie, returning the
engine response together with the list of handler invocations performed.
`debug` is true when `NDEBUG` is not defined. -/
def fs_callback_glue (debug : Bool) (handler : String → String → Int → Int → Int)
    (cookie : Int) (event cluster : String) (value : Int) :
    event_response × List FsCallArgs :=
  let result := handler event cluster value cookie
  let calls : List FsCallArgs := [⟨event, cluster, value, cookie⟩]
  if result = LIBHDFSPP_EVENT_OK then
    (event_response.ok, calls)
  else if debug = true ∧ result = DEBUG_SIMULATE_ERROR then
    (event_response.test_err "Simulated error", calls)
  else
    (event_response.ok, calls)

/-- `file_callback_glue(handler, cookie, event, cluster, file, value)`. -/
def file_callback_glue (debug : Bool)
    (handler : String → String → String → Int → Int → Int) (cookie : Int)
    (event cluster file : String) (value : Int) :
    event_response × List FileCallArgs :=
  let result := handler event cluster file value cookie
  let calls : List FileCallArgs := [⟨event, cluster, file, value, cookie⟩]
  if result = LIBHDFSPP_EVENT_OK then
    (event_response.ok, calls)
  else if debug = true ∧ result = DEBUG_SIMULATE_ERROR then
    (event_response.test_err "Simulated error", calls)
  else
    (event_response.ok, calls)

/-- A filesystem-event closure as stored by `hdfsPreAttachFSMonitor`: the C
handler bound together with the registration cookie. -/
structure StoredFsCallback where
  handler : String → String → Int → Int → Int
  cookie : Int

/-- A file-event closure as stored by `hdfsPreAttachFileMonitor`. -/
structure StoredFileCallback where
  handler : String → String → String → Int → Int → Int
  cookie : Int

/-- The thread-local pending callback slots. -/
structure ThreadCallbacks where
  fsEventCallback : Option StoredFsCallback
  fileEventCallback : Option StoredFileCallback

/-- `hdfsPreAttachFSMonitor(handler, cookie)`: bind the handler and cookie
into the thread-local filesystem callback slot and return 0. -/
def hdfsPreAttachFSMonitor (handler : String → String → Int → Int → Int)
    (cookie : Int) (tls : ThreadCallbacks) : Int × ThreadCallbacks :=
  (0, { tls with fsEventCallback := some ⟨handler, cookie⟩ })

/-- `hdfsPreAttachFileMonitor(handler, cookie)`. -/
def hdfsPreAttachFileMonitor
    (handler : String → String → String → Int → Int → Int) (cookie : Int)
    (tls : ThreadCallbacks) : Int × ThreadCallbacks :=
  (0, { tls with fileEventCallback := some ⟨handler, cookie⟩ })

/-- The engine invoking a stored filesystem-event closure: exactly the bound
`fs_callback_glue`. -/
def invokeFsCallback (debug : Bool) (cb : StoredFsCallback)
    (event cluster : String) (value : Int) : event_response × List FsCallArgs :=
  fs_callback_glue debug cb.handler cb.cookie event cluster value

/-- The engine invoking a stored file-event closure. -/
def invokeFileCallback (debug : Bool) (cb : StoredFileCallback)
    (event cluster file : String) (value : Int) :
    event_response × List FileCallArgs :=
  file_callback_glue debug cb.handler cb.cookie event cluster file value

/-- The POD `LogData` record: level, component, message pointer (`none` is
the null pointer, `some a` the address of a string cell), an opaque
source-file pointer and the source line. -/
structure LogData where
  level : Int
  component : Int
  msg : Option Nat
  file_name : Int
  file_line : Int
  deriving DecidableEq, Repr

/-- The all-zero record produced by `memset(data, 0, sizeof(LogData))`: all
scalar fields 0 and both pointers null. -/
def zeroLogData : LogData :=
  { level := 0, component := 0, msg := none, file_name := 0, file_line := 0 }

/-- A heap for the log-record copy/free protocol.  Memory contents persist
after deallocation (as in C, freeing does not erase), so `strMem`/`recMem`
map an address to the bytes last stored there while `strLive`/`recLive`
list the currently allocated addresses.  `next` is the next fresh address;
allocation is modelled as always succeeding. -/
structure LogHeap where
  strMem : List (Nat × String)
  strLive : List Nat
  recMem : List (Nat × LogData)
  recLive : List Nat
  next : Nat

/-- Store a value at an address already present in an association list. -/
def updateAssoc {α : Type} (l : List (Nat × α)) (a : Nat) (v : α) :
    List (Nat × α) :=
  l.map (fun p => if p.1 = a then (a, v) else p)

/-- `strdup(s)`: allocate a fresh string cell holding a copy of the
characters. -/
def strdup (h : LogHeap) (sVal : String) : LogHeap × Nat :=
  ({ h with strMem := (h.next, sVal) :: h.strMem,
            strLive := h.next :: h.strLive,
            next := h.next + 1 }, h.next)

/-- `malloc(sizeof(LogData))`: allocate a fresh record cell whose initial
contents are the unspecified junk left by the allocator. -/
def mallocLogData (h : LogHeap) (junk : LogData) : LogHeap × Nat :=
  ({ h with recMem := (h.next, junk) :: h.recMem,
            recLive := h.next :: h.recLive,
            next := h.next + 1 }, h.next)

/-- `CForwardingLogger::CopyLogData(orig)`: null in, null out; otherwise
allocate a fresh record, copy level and component, `strdup` the message when
the message pointer is non-null (leaving the field as allocator junk when it
is null), and shallow-copy the file-name pointer and line.  `orig` is the
dereferenced original record (the source passes a pointer, possibly to a
stack-local record), and a non-null original message pointer is read from
the string memory. -/
def CopyLogData (h : LogHeap) (orig : Option LogData) (junk : LogData) :
    LogHeap × Option Nat :=
  match orig with
  | none => (h, none)
  | some r =>
    let alloc := mallocLogData h junk
    let h1 := alloc.1
    let ca := alloc.2
    match r.msg with
    | some ma =>
      let dup := strdup h1 ((h1.strMem.lookup ma).getD "")
      let h2 := dup.1
      let sa := dup.2
      let copyRec : LogData :=
        { level := r.level, component := r.component, msg := some sa,
          file_name := r.file_name, file_line := r.file_line }
      ({ h2 with recMem := updateAssoc h2.recMem ca copyRec }, some ca)
    | none =>
      let copyRec : LogData :=
        { level := r.level, component := r.component, msg := junk.msg,
          file_name := r.file_name, file_line := r.file_line }
      ({ h1 with recMem := updateAssoc h1.recMem ca copyRec }, some ca)

/-- `CForwardingLogger::FreeLogData(data)`: a null pointer is a no-op;
otherwise free the message cell when the message pointer is non-null, zero
the whole record (`memset`), then free the record cell. -/
def FreeLogData (h : LogHeap) (data : Option Nat) : LogHeap :=
  match data with
  | none => h
  | some a =>
    let r := (h.recMem.lookup a).getD zeroLogData
    let h1 :=
      match r.msg with
      | some ma => { h with strLive := h.strLive.erase ma }
      | none => h
    let h2 := { h1 with recMem := updateAssoc h1.recMem a zeroLogData }
    { h2 with recLive := h2.recLive.erase a }

/-- `hdfsCopyLogData(data)`: delegates to `CForwardingLogger::CopyLogData`. -/
def hdfsCopyLogData (h : LogHeap) (data : Option LogData) (junk : LogData) :
    LogHeap × Option Nat :=
  CopyLogData h data junk

/-- `hdfsFreeLogData(data)`: delegates to `CForwardingLogger::FreeLogData`. -/
def hdfsFreeLogData (h : LogHeap) (data : Option Nat) : LogHeap :=
  FreeLogData h data

/-- C1: the status translation `Error` returns 0 and records no error for
the ok code; for every other code it returns -1 and records exactly the
specified errno with the specified default message, except that a non-empty
descriptive text carried by the result is recorded instead of the default. -/
theorem Error_status_translation_C1 (s : CState) (text : String) :
    Error ⟨StatusCode.kOk, text⟩ s = (0, s) ∧
    Error ⟨StatusCode.kInvalidArgument, text⟩ s =
      (-1, ReportError Errno.EINVAL
        (if text = "" then "Invalid argument" else text) s) ∧
    Error ⟨StatusCode.kResourceUnavailable, text⟩ s =
      (-1, ReportError Errno.EAGAIN
        (if text = "" then "Resource temporarily unavailable" else text) s) ∧
    Error ⟨StatusCode.kUnimplemented, text⟩ s =
      (-1, ReportError Errno.ENOSYS
        (if text = "" then "Function not implemented" else text) s) ∧
    Error ⟨StatusCode.kException, text⟩ s =
      (-1, ReportError Errno.EINTR
        (if text = "" then "Exception raised" else text) s) ∧
    Error ⟨StatusCode.kOperationCanceled, text⟩ s =
      (-1, ReportError Errno.EINTR
        (if text = "" then "Operation canceled" else text) s) ∧
    Error ⟨StatusCode.kPermissionDenied, text⟩ s =
      (-1, ReportError Errno.EACCES
        (if text = "" then "Permission denied" else text) s) ∧
    ∀ n : Nat, Error ⟨StatusCode.kOther n, text⟩ s =
      (-1, ReportError Errno.ENOSYS
        (if text = "" then "Error: unrecognised code" else text) s) := by
  refine ⟨rfl, ?_, ?_, ?_, ?_, ?_, ?_, ?_⟩ <;>
    first
      | (simp only [Error]; split_ifs <;> rfl)
      | (intro n; simp only [Error]; split_ifs <;> rfl)

/-- C10: `hdfsFileIsOpenForRead` returns 1 for every non-null file handle
and 0 for a null one; in the model it is a pure function of the handle
null-ness alone, so it consults no engine state and reports no error. -/
theorem hdfsFileIsOpenForRead_C10 :
    hdfsFileIsOpenForRead true = 1 ∧ hdfsFileIsOpenForRead false = 0 :=
  ⟨rfl, rfl⟩

/-- C5: every per-file operation given a null filesystem handle reports
`ENODEV` and returns its sentinel -1 regardless of the file handle, and
given a non-null filesystem handle with a null file handle reports `EBADF`
and returns -1; in both cases the wrapped engine object is never touched. -/
theorem per_file_null_handle_checks_C5 (engStat : Status) (engLen : Nat)
    (engOffset : Int) (position length desiredPos : Int) (file : Bool)
    (s : CState) :
    (hdfsCloseFile false file s =
      ⟨-1, ReportError Errno.ENODEV
        "Cannot perform FS operations with null FS handle." s, false⟩) ∧
    (hdfsPread engStat engLen false file position length s =
      ⟨-1, ReportError Errno.ENODEV
        "Cannot perform FS operations with null FS handle." s, false⟩) ∧
    (hdfsRead engStat engLen false file length s =
      ⟨-1, ReportError Errno.ENODEV
        "Cannot perform FS operations with null FS handle." s, false⟩) ∧
    (hdfsSeek engStat false file desiredPos s =
      ⟨-1, ReportError Errno.ENODEV
        "Cannot perform FS operations with null FS handle." s, false⟩) ∧
    (hdfsTell engStat engOffset false file s =
      ⟨-1, ReportError Errno.ENODEV
        "Cannot perform FS operations with null FS handle." s, false⟩) ∧
    (hdfsCancel false file s =
      ⟨-1, ReportError Errno.ENODEV
        "Cannot perform FS operations with null FS handle." s, false⟩) ∧
    (hdfsCloseFile true false s =
      ⟨-1, ReportError Errno.EBADF
        "Cannot perform FS operations with null File handle." s, false⟩) ∧
    (hdfsPread engStat engLen true false position length s =
      ⟨-1, ReportError Errno.EBADF
        "Cannot perform FS operations with null File handle." s, false⟩) ∧
    (hdfsRead engStat engLen true false length s =
      ⟨-1, ReportError Errno.EBADF
        "Cannot perform FS operations with null File handle." s, false⟩) ∧
    (hdfsSeek engStat true false desiredPos s =
      ⟨-1, ReportError Errno.EBADF
        "Cannot perform FS operations with null File handle." s, false⟩) ∧
    (hdfsTell engStat engOffset true false s =
      ⟨-1, ReportError Errno.EBADF
        "Cannot perform FS operations with null File handle." s, false⟩) ∧
    (hdfsCancel true false s =
      ⟨-1, ReportError Errno.EBADF
        "Cannot perform FS operations with null File handle." s, false⟩) :=
  ⟨rfl, rfl, rfl, rfl, rfl, rfl, rfl, rfl, rfl, rfl, rfl, rfl⟩

/-- C2: `hdfsGetLastError` writes nothing for a null buffer or a length
below 1; otherwise it copies at most `min(message length, len)` message
bytes, never writes an index past `len - 1`, always writes a null byte at
an index below `len`, and when `len` equals the stored message length it
copies exactly `len - 1` message bytes. -/
theorem hdfsGetLastError_bounds_C2 (errstr : List Char) (bufNull : Bool)
    (len : Int) :
    (bufNull = true ∨ len < 1 → hdfsGetLastError errstr bufNull len = []) ∧
    (bufNull = false → 1 ≤ len →
      (∀ p ∈ hdfsGetLastError errstr bufNull len, p.1 < len.toNat) ∧
      (hdfsGetLastError errstr bufNull len).countP (fun p => p.2.isSome)
          ≤ min errstr.length len.toNat ∧
      (∃ p ∈ hdfsGetLastError errstr bufNull len, p.2 = none) ∧
      (len = (errstr.length : Int) →
        (hdfsGetLastError errstr bufNull len).countP (fun p => p.2.isSome)
          = errstr.length - 1)) := by
  constructor
  · intro hor
    unfold hdfsGetLastError
    rw [if_pos hor]
  · intro hb hl
    subst hb
    have hnot : ¬((false : Bool) ∨ len < 1) := by
      simp only [Bool.false_eq_true, false_or, not_lt]
      omega
    have hlen1 : 1 ≤ len.toNat := by omega
    unfold hdfsGetLastError
    rw [if_neg hnot]
    simp only []
    set lenN := len.toNat with hlenN
    set copylen0 := min errstr.length lenN with hc0
    set copylen := if copylen0 = lenN then copylen0 - 1 else copylen0 with hc
    have hclt : copylen < lenN := by
      rw [hc]
      split_ifs with hsplit
      · omega
      · rw [hc0] at hsplit ⊢
        omega
    have hcle : copylen ≤ copylen0 := by
      rw [hc]; split_ifs <;> omega
    have hcount :
        (((List.range copylen).map
            (fun i => (i, some (errstr.getD i (Char.ofNat 0))))) ++
          [(copylen, (none : Option Char))]).countP (fun p => p.2.isSome)
          = copylen := by
      rw [List.countP_append, List.countP_map]
      have hfun : ((fun (p : Nat × Option Char) => p.2.isSome) ∘
          fun i => (i, some (errstr.getD i (Char.ofNat 0)))) =
            fun _ => true := by
        funext i; rfl
      rw [hfun]
      simp
    refine ⟨?_, ?_, ?_, ?_⟩
    · intro p hp
      rcases List.mem_append.1 hp with h | h
      · obtain ⟨i, hi, rfl⟩ := List.mem_map.1 h
        have := List.mem_range.1 hi
        omega
      · have : p = (copylen, none) := List.mem_singleton.1 h
        subst this
        exact hclt
    · rw [hcount]; rw [hc0] at hcle; omega
    · exact ⟨(copylen, none), List.mem_append_right _ (List.mem_singleton_self _), rfl⟩
    · intro heq
      rw [hcount, hc, hc0]
      have : lenN = errstr.length := by omega
      rw [this]
      simp

/-- Witness for C2: a two-byte stored message queried with a buffer of
length exactly 2 copies exactly one message byte. -/
theorem hdfsGetLastError_bounds_C2_witness :
    (hdfsGetLastError [Char.ofNat 104, Char.ofNat 105] false 2).countP
        (fun p => p.2.isSome) = 2 - 1 :=
  ((hdfsGetLastError_bounds_C2 [Char.ofNat 104, Char.ofNat 105] false 2).2
      rfl (by decide)).2.2.2 (by decide)

/-- C3 (failing path): when `FileSystem::New` returns null, `doHdfsConnect`
reports `ENODEV` with "Could not create FileSystem object" and returns
null, but executes neither `delete io_service` nor `delete fs` - the
already-constructed I/O service is not released on this path, contrary to
the claim. -/
theorem doHdfsConnect_fs_null_leak_C3 :
    doHdfsConnect ⟨false, false, fun _ => ⟨StatusCode.kOk, ""⟩⟩ false none none
        none ⟨none, ""⟩ =
      { ret := none, target := none, callbackAttached := false,
        ioServiceDeleted := false, fsDeleted := false,
        state := ⟨some Errno.ENODEV, "Could not create FileSystem object"⟩ } :=
  rfl

/-- C4: when filesystem construction succeeds, `doHdfsConnect` with a host
or port override connects to the explicit address, substituting port 8020
for a missing port, and with neither override connects to the default
filesystem. -/
theorem doHdfsConnect_target_selection_C4 (eng : Engine) (fsCb : Bool)
    (nn : Option String) (port : Option Nat) (user : Option String)
    (s : CState) (hfs : eng.fsNewOk = true) :
    (nn.isSome = true ∨ port.isSome = true →
      (doHdfsConnect eng fsCb nn port user s).target =
        some (ConnectTarget.explicitAddr (nn.getD "")
          (toString (port.getD 8020)))) ∧
    (nn = none → port = none →
      (doHdfsConnect eng fsCb nn port user s).target =
        some ConnectTarget.defaultFs) := by
  constructor
  · intro hor
    have hcond : (nn.isSome || port.isSome) = true := by
      rcases hor with h | h <;> simp [h]
    unfold doHdfsConnect
    rw [hfs]
    simp only [Bool.not_true, Bool.false_eq_true, if_false, hcond, if_true]
    split <;> rfl
  · intro hn hp
    subst hn; subst hp
    unfold doHdfsConnect
    rw [hfs]
    simp only [Bool.not_true, Bool.false_eq_true, if_false, Option.isSome_none,
      Bool.or_self]
    split <;> rfl

/-- Witness for C4: a successful construction with a host override and no
port override connects to that host at port 8020. -/
theorem doHdfsConnect_target_selection_C4_witness :
    (doHdfsConnect ⟨true, false, fun _ => ⟨StatusCode.kOk, ""⟩⟩ false
        (some "nnhost") none none ⟨none, ""⟩).target =
      some (ConnectTarget.explicitAddr "nnhost" (toString (8020 : Nat))) :=
  (doHdfsConnect_target_selection_C4 ⟨true, false, fun _ => ⟨StatusCode.kOk, ""⟩⟩
      false (some "nnhost") none none ⟨none, ""⟩ rfl).1 (Or.inl rfl)

/-- C6: `hdfsBuilderConfSetStr` replaces the snapshot and returns 0 when
the loader overlay succeeds; when the overlay is rejected it reports
`EINVAL`/"Could not change Builder value", returns 1 and leaves the builder
(snapshot and overrides) unchanged. -/
theorem hdfsBuilderConfSetStr_overlay_C6 (bld : hdfsBuilder) (key val : String)
    (s : CState) :
    (∀ c, bld.loader.OverlayValue bld.config key val = some c →
      hdfsBuilderConfSetStr bld key val s = (0, { bld with config := c }, s)) ∧
    (bld.loader.OverlayValue bld.config key val = none →
      hdfsBuilderConfSetStr bld key val s =
        (1, bld, ReportError Errno.EINVAL "Could not change Builder value" s)) := by
  constructor
  · intro c hc
    unfold hdfsBuilderConfSetStr
    rw [hc]
  · intro hc
    unfold hdfsBuilderConfSetStr
    rw [hc]

/-- Witness for C6: a loader that rejects every overlay makes
`hdfsBuilderConfSetStr` return 1, report `EINVAL`, and keep the builder. -/
theorem hdfsBuilderConfSetStr_overlay_C6_witness :
    hdfsBuilderConfSetStr
        ⟨⟨fun _ _ _ => none⟩, ⟨fun _ => none, fun _ => none⟩, none, none, none⟩
        "k" "v" ⟨none, ""⟩ =
      (1, ⟨⟨fun _ _ _ => none⟩, ⟨fun _ => none, fun _ => none⟩, none, none, none⟩,
        ReportError Errno.EINVAL "Could not change Builder value" ⟨none, ""⟩) :=
  (hdfsBuilderConfSetStr_overlay_C6
      ⟨⟨fun _ _ _ => none⟩, ⟨fun _ => none, fun _ => none⟩, none, none, none⟩
      "k" "v" ⟨none, ""⟩).2 rfl

/-- C7: `hdfsBuilderConfGetInt` returns the failure code 1 without touching
the output slot for a present value outside the 32-bit signed range; stores
a present in-range value exactly and returns 0; and for an absent key
returns 0, keeps the output slot, and still reports `EINVAL`. -/
theorem hdfsBuilderConfGetInt_range_C7 (bld : hdfsBuilder) (key : String)
    (valOld : Int) (s : CState) :
    (∀ v, bld.config.getInt key = some v →
      (v < -2147483648 ∨ 2147483647 < v) →
      hdfsBuilderConfGetInt bld key valOld s = (1, valOld, s)) ∧
    (∀ v, bld.config.getInt key = some v →
      -2147483648 ≤ v → v ≤ 2147483647 →
      hdfsBuilderConfGetInt bld key valOld s =
        (0, v, ReportError Errno.EINVAL "Could not get Builder value" s)) ∧
    (bld.config.getInt key = none →
      hdfsBuilderConfGetInt bld key valOld s =
        (0, valOld, ReportError Errno.EINVAL "Could not get Builder value" s)) := by
  refine ⟨?_, ?_, ?_⟩
  · intro v hv hrange
    have hvalid : isValidInt v = false := by
      simp only [isValidInt, decide_eq_false_iff_not, not_and, not_le]
      omega
    unfold hdfsBuilderConfGetInt
    rw [hv]
    simp [hvalid]
  · intro v hv h1 h2
    have hvalid : isValidInt v = true := by
      simp only [isValidInt, decide_eq_true_eq]
      omega
    unfold hdfsBuilderConfGetInt
    rw [hv]
    simp [hvalid]
  · intro hv
    unfold hdfsBuilderConfGetInt
    rw [hv]

/-- Witness for C7: a configuration holding 5000000000 under every key makes
`hdfsBuilderConfGetInt` fail with 1 and keep the output slot at 7. -/
theorem hdfsBuilderConfGetInt_range_C7_witness :
    hdfsBuilderConfGetInt
        ⟨⟨fun _ _ _ => none⟩, ⟨fun _ => none, fun _ => some 5000000000⟩,
          none, none, none⟩ "k" 7 ⟨none, ""⟩ = (1, 7, ⟨none, ""⟩) :=
  (hdfsBuilderConfGetInt_range_C7
      ⟨⟨fun _ _ _ => none⟩, ⟨fun _ => none, fun _ => some 5000000000⟩,
        none, none, none⟩ "k" 7 ⟨none, ""⟩).1 5000000000 rfl
    (Or.inr (by norm_num))

/-- C8: registering a monitor stores the handler and cookie and returns 0;
an engine invocation of the stored closure calls the C handler exactly once
with the event arguments plus the registration cookie; a non-debug build
always answers the continue response whatever the handler returned, and a
debug build answers the synthesized test failure exactly for the sentinel
return value. -/
theorem callback_glue_C8 (debug : Bool)
    (handler : String → String → Int → Int → Int)
    (fhandler : String → String → String → Int → Int → Int)
    (cookie : Int) (event cluster file : String) (value : Int)
    (tls : ThreadCallbacks) :
    (hdfsPreAttachFSMonitor handler cookie tls).1 = 0 ∧
    (hdfsPreAttachFSMonitor handler cookie tls).2.fsEventCallback =
      some ⟨handler, cookie⟩ ∧
    (hdfsPreAttachFileMonitor fhandler cookie tls).2.fileEventCallback =
      some ⟨fhandler, cookie⟩ ∧
    (invokeFsCallback debug ⟨handler, cookie⟩ event cluster value).2 =
      [⟨event, cluster, value, cookie⟩] ∧
    (invokeFileCallback debug ⟨fhandler, cookie⟩ event cluster file value).2 =
      [⟨event, cluster, file, value, cookie⟩] ∧
    (debug = false →
      (invokeFsCallback debug ⟨handler, cookie⟩ event cluster value).1 =
        event_response.ok ∧
      (invokeFileCallback debug ⟨fhandler, cookie⟩ event cluster file value).1 =
        event_response.ok) ∧
    (debug = true →
      ((invokeFsCallback debug ⟨handler, cookie⟩ event cluster value).1 =
          event_response.test_err "Simulated error" ↔
        handler event cluster value cookie = DEBUG_SIMULATE_ERROR) ∧
      ((invokeFileCallback debug ⟨fhandler, cookie⟩ event cluster file value).1 =
          event_response.test_err "Simulated error" ↔
        fhandler event cluster file value cookie = DEBUG_SIMULATE_ERROR)) := by
  refine ⟨rfl, rfl, rfl, ?_, ?_, ?_, ?_⟩
  · unfold invokeFsCallback fs_callback_glue
    dsimp only
    split_ifs <;> rfl
  · unfold invokeFileCallback file_callback_glue
    dsimp only
    split_ifs <;> rfl
  · intro hd
    subst hd
    constructor
    · unfold invokeFsCallback fs_callback_glue
      dsimp only
      split_ifs with h1 h2
      · rfl
      · exact absurd h2.1 (by simp)
      · rfl
    · unfold invokeFileCallback file_callback_glue
      dsimp only
      split_ifs with h1 h2
      · rfl
      · exact absurd h2.1 (by simp)
      · rfl
  · intro hd
    subst hd
    constructor
    · unfold invokeFsCallback fs_callback_glue
      dsimp only
      split_ifs with h1 h2
      · constructor
        · intro h; cases h
        · intro h
          rw [h1] at h
          simp only [LIBHDFSPP_EVENT_OK, DEBUG_SIMULATE_ERROR] at h
          omega
      · simp [h2.2]
      · constructor
        · intro h; cases h
        · intro h
          exact absurd ⟨rfl, h⟩ h2
    · unfold invokeFileCallback file_callback_glue
      dsimp only
      split_ifs with h1 h2
      · constructor
        · intro h; cases h
        · intro h
          rw [h1] at h
          simp only [LIBHDFSPP_EVENT_OK, DEBUG_SIMULATE_ERROR] at h
          omega
      · simp [h2.2]
      · constructor
        · intro h; cases h
        · intro h
          exact absurd ⟨rfl, h⟩ h2

/-- Witness for C8: a handler returning the continue code in a non-debug
build yields the continue response. -/
theorem callback_glue_C8_witness :
    (invokeFsCallback false ⟨fun _ _ _ _ => 0, 7⟩ "connect" "cluster" 3).1 =
      event_response.ok :=
  ((callback_glue_C8 false (fun _ _ _ _ => 0) (fun _ _ _ _ _ => 0) 7 "connect"
      "cluster" "f" 3 ⟨none, none⟩).2.2.2.2.2.1 rfl).1

/-- Looking up the key at the head of an association list. -/
theorem lookup_cons_self {α : Type} (l : List (Nat × α)) (a : Nat) (v : α) :
    ((a, v) :: l).lookup a = some v := by
  simp [List.lookup]

/-- Updating the key at the head of an association list rewrites the head. -/
theorem updateAssoc_cons_self {α : Type} (l : List (Nat × α)) (a : Nat)
    (u v : α) :
    updateAssoc ((a, u) :: l) a v = (a, v) :: updateAssoc l a v := by
  simp [updateAssoc]

/-- Storing a value at an address present in an association list makes the
lookup at that address return it. -/
theorem lookup_updateAssoc {α : Type} (l : List (Nat × α)) (a : Nat) (v w : α)
    (h : l.lookup a = some w) : (updateAssoc l a v).lookup a = some v := by
  induction l with
  | nil => simp [List.lookup] at h
  | cons p t ih =>
    obtain ⟨k, u⟩ := p
    by_cases hk : k = a
    · subst hk
      rw [updateAssoc_cons_self]
      exact lookup_cons_self _ _ _
    · have hne : (a == k) = false := by
        simp only [beq_eq_false_iff_ne, ne_eq]
        intro hh
        exact hk hh.symm
      simp only [List.lookup, hne] at h
      simp only [updateAssoc, List.map_cons]
      have hhead : (if (k, u).1 = a then (a, v) else (k, u)) = (k, u) :=
        if_neg hk
      rw [hhead]
      simp only [List.lookup, hne]
      exact ih h

/-- C9: copying a null log record yields null; copying a record yields a
freshly allocated record whose scalar and pointer fields equal the original
and whose message, when present, is an independently allocated copy with
equal contents; freeing releases the message cell, zeroes the record memory
and releases the record cell; freeing null is a no-op. -/
theorem log_record_copy_free_C9 (h : LogHeap) (r junk : LogData) (a ma : Nat)
    (str : String) (rec2 : LogData) :
    (hdfsCopyLogData h none junk = (h, none)) ∧
    (r.msg = some ma → h.strMem.lookup ma = some str →
      ma ∈ h.strLive →
      (∀ b ∈ h.strLive, b < h.next) → (∀ b ∈ h.recLive, b < h.next) →
      (hdfsCopyLogData h (some r) junk).2 = some h.next ∧
      h.next ∉ h.recLive ∧
      h.next ∈ (hdfsCopyLogData h (some r) junk).1.recLive ∧
      (hdfsCopyLogData h (some r) junk).1.recMem.lookup h.next =
        some ⟨r.level, r.component, some (h.next + 1), r.file_name,
          r.file_line⟩ ∧
      (hdfsCopyLogData h (some r) junk).1.strMem.lookup (h.next + 1) =
        some str ∧
      h.next + 1 ∉ h.strLive ∧
      h.next + 1 ≠ ma) ∧
    (r.msg = none →
      (hdfsCopyLogData h (some r) junk).2 = some h.next ∧
      (hdfsCopyLogData h (some r) junk).1.recMem.lookup h.next =
        some ⟨r.level, r.component, junk.msg, r.file_name, r.file_line⟩) ∧
    (h.recMem.lookup a = some rec2 → h.strLive.Nodup → h.recLive.Nodup →
      (∀ mb, rec2.msg = some mb →
        mb ∉ (hdfsFreeLogData h (some a)).strLive) ∧
      (hdfsFreeLogData h (some a)).recMem.lookup a = some zeroLogData ∧
      a ∉ (hdfsFreeLogData h (some a)).recLive) ∧
    (hdfsFreeLogData h none = h) := by
  refine ⟨rfl, ?_, ?_, ?_, rfl⟩
  · intro hmsg hstr hma hbs hbr
    obtain ⟨lv, cp, rmsg, fn, fl⟩ := r
    dsimp only at hmsg ⊢
    subst hmsg
    unfold hdfsCopyLogData CopyLogData mallocLogData strdup
    dsimp only
    rw [hstr]
    simp only [Option.getD]
    refine ⟨by trivial, ?_, ?_, ?_, ?_, ?_, ?_⟩
    · intro hmem
      exact absurd (hbr _ hmem) (lt_irrefl _)
    · exact List.mem_cons_self _ _
    · rw [updateAssoc_cons_self]
      exact lookup_cons_self _ _ _
    · exact lookup_cons_self _ _ _
    · intro hmem
      have := hbs _ hmem
      omega
    · have := hbs _ hma
      omega
  · intro hmsg
    obtain ⟨lv, cp, rmsg, fn, fl⟩ := r
    dsimp only at hmsg ⊢
    subst hmsg
    unfold hdfsCopyLogData CopyLogData mallocLogData
    dsimp only
    refine ⟨by trivial, ?_⟩
    rw [updateAssoc_cons_self]
    exact lookup_cons_self _ _ _
  · intro hrec hnds hndr
    obtain ⟨lv2, cp2, rmsg2, fn2, fl2⟩ := rec2
    unfold hdfsFreeLogData FreeLogData
    dsimp only
    rw [hrec]
    try dsimp only [Option.getD]
    rcases rmsg2 with _ | mb2
    · try dsimp only
      refine ⟨?_, ?_, ?_⟩
      · intro mb hmb
        simp at hmb
      · exact lookup_updateAssoc _ _ _ _ hrec
      · intro hmem
        exact ((List.Nodup.mem_erase_iff hndr).1 hmem).1 rfl
    · try dsimp only
      refine ⟨?_, ?_, ?_⟩
      · intro mb hmb
        injection hmb with hmb2
        subst hmb2
        intro hmem
        exact ((List.Nodup.mem_erase_iff hnds).1 hmem).1 rfl
      · exact lookup_updateAssoc _ _ _ _ hrec
      · intro hmem
        exact ((List.Nodup.mem_erase_iff hndr).1 hmem).1 rfl

/-- Witness for C9: copying a record whose message lives at address 0 of a
one-string heap produces a record at the fresh address 1 whose message
points at the fresh string cell 2. -/
theorem log_record_copy_free_C9_witness :
    (hdfsCopyLogData ⟨[(0, "hello")], [0], [], [], 1⟩
        (some ⟨3, 4, some 0, 5, 6⟩) ⟨9, 9, none, 9, 9⟩).1.recMem.lookup 1 =
      some ⟨3, 4, some 2, 5, 6⟩ :=
  ((log_record_copy_free_C9 ⟨[(0, "hello")], [0], [], [], 1⟩
      ⟨3, 4, some 0, 5, 6⟩ ⟨9, 9, none, 9, 9⟩ 0 0 "hello" zeroLogData).2.1
      rfl rfl (by decide) (by decide) (by decide)).2.2.2.1
